import Mathlib

/-!
Shallow embedding of the nightskycam supervised-worker runtime
(`src/nightskycam`), covering the parts needed to settle the spec claims:

* `status.py` — the `SkyThreadStatus` state machine and its
  `_status_change_callbacks` decorator (callback fan-out);
* `running_threads.py` — `RunningThreads.maintain`, the reconciliation cycle;
* `configuration_getter.py` — `DynamicConfigurationGetter.get_global` /
  `get_st_mtime` (mtime-based caching);
* `locks.py` — the `Locks` named-lock registry;
* `configuration_file.py` — `is_valid_configuration_filename`,
  `get_version_number`, `best_config_file`, `local_config_cleanup`;
* `skythreads/config_thread.py` — `download_remote_if_better` and the
  versioned-configuration adoption step of `ConfigThread._execute`;
* `command_file.py` — `new_command_file` and the previous-command marker.

Python wall-clock timestamps (`datetime.datetime.now()`, `st_mtime`) are
modelled as `Nat` values supplied by the caller at each call; parsed TOML
documents are abstracted to `Nat` content identifiers where their structure
is irrelevant to the claim.
-/

namespace Nightskycam

/-! ## status.py -/

/-- The `Status` enum of `status.py` (`running/starting/off/failure`). -/
inductive PyStatus
  | running
  | starting
  | off
  | failure
deriving DecidableEq, Repr

/-- The mutable fields of a `SkyThreadStatus` instance touched by the three
status setters (`status.py` lines 44-48): `_status`, `_error`,
`_started_running`, `_last_time_running`.  Timestamps are `Nat`. -/
structure StatusState where
  status : PyStatus
  error : Option String
  startedRunning : Option Nat
  lastTimeRunning : Option Nat
deriving DecidableEq, Repr

/-- Field values right after `SkyThreadStatus.__init__`
(`status.py` lines 45-48): status `starting`, everything else unset. -/
def initStatus : StatusState :=
  { status := PyStatus.starting
    error := none
    startedRunning := none
    lastTimeRunning := none }

/-- The body of `set_running` (`status.py` lines 147-152): clears the error,
sets the status to `running`, and stamps `_started_running` with the current
time only if it is unset.  `now` is the value `datetime.datetime.now()`
returns during the call. -/
def set_running (now : Nat) (s : StatusState) : StatusState :=
  { s with
    error := none
    status := PyStatus.running
    startedRunning :=
      match s.startedRunning with
      | none => some now
      | some t => some t }

/-- The body of `set_off` (`status.py` lines 155-160): stamps
`_last_time_running` when leaving `running`, sets the status to `off`, and
clears `_started_running`. -/
def set_off (now : Nat) (s : StatusState) : StatusState :=
  { s with
    lastTimeRunning :=
      if s.status = PyStatus.running then some now else s.lastTimeRunning
    status := PyStatus.off
    startedRunning := none }

/-- The body of `set_failure` (`status.py` lines 163-169): stamps
`_last_time_running` when leaving `running`, records the error, sets the
status to `failure`, and clears `_started_running`. -/
def set_failure (err : String) (now : Nat) (s : StatusState) : StatusState :=
  { s with
    lastTimeRunning :=
      if s.status = PyStatus.running then some now else s.lastTimeRunning
    error := some err
    status := PyStatus.failure
    startedRunning := none }

/-- One call to a decorated status setter. -/
inductive StatusOp
  | opRunning (now : Nat)
  | opOff (now : Nat)
  | opFailure (err : String) (now : Nat)
deriving DecidableEq, Repr

/-- The `_status_change_callbacks` decorator (`status.py` lines 121-144):
record the previous status, run the wrapped setter, and invoke the
registered callbacks iff the status after the call differs from the
previous one.  Returns the new state and whether callbacks were invoked. -/
def status_change_callbacks (s : StatusState) (op : StatusOp) :
    StatusState × Bool :=
  let previous := s.status
  let s2 :=
    match op with
    | StatusOp.opRunning now => set_running now s
    | StatusOp.opOff now => set_off now s
    | StatusOp.opFailure err now => set_failure err now s
  (s2, decide (s2.status ≠ previous))

/-- Runs a sequence of setter calls on a state. -/
def runStatusOps (s : StatusState) (ops : List StatusOp) : StatusState :=
  ops.foldl (fun st op => (status_change_callbacks st op).1) s

/-- Outcome of one registered callback invocation: `Except.error e` models
the callback raising exception `e`. -/
def run_callbacks : List (Except String Unit) → Except String Unit
  | [] => Except.ok ()
  | outcome :: rest =>
    match outcome with
    | Except.error e => Except.error e
    | Except.ok _ => run_callbacks rest

/-- The full decorated setter including callback dispatch
(`status.py` lines 124-142): the wrapped setter always runs; if the status
changed, the callbacks run in order with no surrounding `try/except`, so the
first callback exception propagates out of the setter call.
`Except.error e` models the setter call raising `e` to its caller. -/
def setter_with_callbacks (s : StatusState) (op : StatusOp)
    (callbackOutcomes : List (Except String Unit)) :
    Except String StatusState :=
  let r := status_change_callbacks s op
  if r.2 then
    match run_callbacks callbackOutcomes with
    | Except.error e => Except.error e
    | Except.ok _ => Except.ok r.1
  else
    Except.ok r.1

/-- The `started_running`/`running` invariant holds of a state. -/
def StartedRunningInv (s : StatusState) : Prop :=
  s.startedRunning ≠ none ↔ s.status = PyStatus.running

lemma status_change_callbacks_inv (s : StatusState) (op : StatusOp) :
    StartedRunningInv (status_change_callbacks s op).1 := by
  cases op with
  | opRunning now =>
    simp only [StartedRunningInv, status_change_callbacks, set_running]
    cases s.startedRunning <;> simp
  | opOff now =>
    simp [StartedRunningInv, status_change_callbacks, set_off]
  | opFailure err now =>
    simp [StartedRunningInv, status_change_callbacks, set_failure]

lemma runStatusOps_inv (s : StatusState) (ops : List StatusOp)
    (h : StartedRunningInv s) : StartedRunningInv (runStatusOps s ops) := by
  induction ops generalizing s with
  | nil => exact h
  | cons op rest ih =>
    have := status_change_callbacks_inv s op
    simpa [runStatusOps] using ih _ this

/-! ## running_threads.py -/

/-- One entry of `RunningThreads.skythreads`: a `SkyThread` instance, i.e. a
worker class (`cls`, abstracted to a `Nat` identifier), an instance
identity (`iid`, so distinct instances of the same class are
distinguishable), and whether its execution thread is running
(`SkyThread._thread` alive; `stop()` joins the thread and sets it to
`None`, `start()`/`revive()` create a live one). -/
structure SWorker where
  cls : Nat
  iid : Nat
  running : Bool
deriving DecidableEq, Repr

/-- The `for index in del_indexes: del cls.skythreads[index]` loop of
`RunningThreads.maintain` (`running_threads.py` lines 49-50): indexes are
applied one by one, each against the list as already mutated by the earlier
deletions.  A `del l[i]` with `i` out of range raises `IndexError`; the
second component is `true` when that happened (the list returned is the
partially mutated registry at that point). -/
def delSeq : List SWorker → List Nat → List SWorker × Bool
  | regs, [] => (regs, false)
  | regs, i :: rest =>
    if i < regs.length then delSeq (regs.eraseIdx i) rest else (regs, true)

/-- The start loop of `RunningThreads.maintain` (`running_threads.py` lines
52-58): for each desired class with no instance in the registry, append a
fresh started instance.  `counter` supplies fresh instance identities.
Returns the new registry, the classes started, and the next counter. -/
def startPhase (desired : List Nat) (regs : List SWorker) (counter : Nat) :
    List SWorker × List Nat × Nat :=
  desired.foldl
    (fun acc d =>
      if (acc.1.map SWorker.cls).contains d then acc
      else (acc.1 ++ [⟨d, acc.2.2, true⟩], acc.2.1 ++ [d], acc.2.2 + 1))
    (regs, [], counter)

/-- The revive loop of `RunningThreads.maintain` (`running_threads.py`
lines 60-61) with `SkyThread.revive` (`skythread.py` lines 69-78): every
registered worker whose thread is not alive is started again. -/
def revivePhase (regs : List SWorker) : List SWorker × List Nat :=
  (regs.map (fun w => { w with running := true }),
   (regs.filter (fun w => !w.running)).map SWorker.iid)

/-- Result of one `RunningThreads.maintain` call: the registry afterwards,
the instance ids `stop()` was called on, the classes newly instantiated and
started, the instance ids revived, and whether the call raised
`IndexError` out of the deletion loop (aborting the rest of the cycle). -/
structure MaintainResult where
  registry : List SWorker
  stopped : List Nat
  started : List Nat
  revived : List Nat
  indexError : Bool
deriving DecidableEq, Repr

/-- `RunningThreads.maintain` (`running_threads.py` lines 29-61).
`configResult` is the outcome of `config_getter.get_global()` composed with
`get_skythreads` — `Except.error` when reading the configuration raised, in
which case the cycle is skipped (`return` after logging); otherwise the
desired worker-class list.  Then: collect `del_indexes` (ascending indexes
of registered workers whose class is not desired), calling `stop()` on
each; run the deletion loop; start missing desired classes; revive dead
threads.  An `IndexError` from the deletion loop propagates (nothing after
it runs, and the partially mutated class-level registry persists). -/
def maintain (configResult : Except String (List Nat))
    (regs : List SWorker) (counter : Nat) : MaintainResult :=
  match configResult with
  | Except.error _ => ⟨regs, [], [], [], false⟩
  | Except.ok desired =>
    let delIndexes :=
      ((List.range regs.length).zip regs).filterMap
        (fun p => if desired.contains p.2.cls then none else some p.1)
    let stoppedIds :=
      (regs.filter (fun w => !(desired.contains w.cls))).map SWorker.iid
    let regs1 :=
      regs.map
        (fun w => if desired.contains w.cls then w
                  else { w with running := false })
    let deleted := delSeq regs1 delIndexes
    if deleted.2 then
      ⟨deleted.1, stoppedIds, [], [], true⟩
    else
      let started := startPhase desired deleted.1 counter
      let revived := revivePhase started.1
      ⟨revived.1, stoppedIds, started.2.1, revived.2, false⟩

/-! ## configuration_getter.py -/

/-- The mutable fields of a `DynamicConfigurationGetter`
(`configuration_getter.py` lines 122-123): `_st_mtime` and the cached
parsed document `_config` (documents abstracted to `Nat` content ids). -/
structure DynGetterState where
  stMtime : Option Nat
  config : Option Nat
deriving DecidableEq, Repr

/-- `DynamicConfigurationGetter` right after `__init__`. -/
def dynInit : DynGetterState := { stMtime := none, config := none }

/-- `DynamicConfigurationGetter.get_st_mtime`
(`configuration_getter.py` lines 125-126). -/
def get_st_mtime (g : DynGetterState) : Option Nat := g.stMtime

/-- `DynamicConfigurationGetter.get_global`
(`configuration_getter.py` lines 128-149) on a call during which the
backing file exists with modification timestamp `mtime` and parses to
`content`: if `_st_mtime` is unset, record `mtime`; if a cached document
exists and the file's current mtime equals the recorded `_st_mtime`,
return the cache; otherwise parse the file, cache the result and return it
(note the source does not update `_st_mtime` on this path).  Returns the
new state, the document returned, and whether the file was parsed. -/
def get_global (g : DynGetterState) (mtime content : Nat) :
    DynGetterState × Nat × Bool :=
  let g1 :=
    match g.stMtime with
    | none => { g with stMtime := some mtime }
    | some _ => g
  match g1.config with
  | some c =>
    if some mtime = g1.stMtime then (g1, c, false)
    else ({ g1 with config := some content }, content, true)
  | none => ({ g1 with config := some content }, content, true)

/-! ## locks.py -/

/-- The `Locks._locks` registry (`locks.py` lines 15-32), keys in creation
order; a lock object is identified by its creation index.  `get_lock`
returns the existing lock for a known key and creates a fresh one for an
unknown key. -/
def get_lock (registry : List String) (key : String) : List String × Nat :=
  match registry.findIdx? (fun k => k == key) with
  | some i => (registry, i)
  | none => (registry ++ [key], registry.length)

/-- The lock key requested by `DynamicConfigurationGetter.__init__`
(`configuration_getter.py` line 119: `Locks.get_lock("configuration")`). -/
def dynamic_getter_lock_key : String := "configuration"

/-- The lock key behind `Locks.get_config_lock` (`locks.py` line 36:
`get_lock("config")`), used by `ConfigThread._execute` and `deploy_test`
around the alias repoint. -/
def config_lock_key : String := "config"

/-! ## configuration_file.py -/

/-- Whether a character is stripped by Python `int(str)` before parsing
(`str.strip()` whitespace). -/
def isPySpace (c : Char) : Bool :=
  c = ' ' || c = '\t' || c = '\n' || c = '\r' ||
  c = Char.ofNat 11 || c = Char.ofNat 12

/-- Digit-run parser for Python `int(str)` after the optional sign: one or
more ASCII digits, single underscores allowed between digits.  `pending`
records that the previous character was an underscore (which must be
followed by a digit).  Non-ASCII digits accepted by Python are not
modelled (no claim depends on them). -/
def pyDigits (acc : Nat) (pending : Bool) : List Char → Option Nat
  | [] => if pending then none else some acc
  | c :: rest =>
    if c.isDigit then pyDigits (acc * 10 + (c.toNat - 48)) false rest
    else if c = '_' && !pending then pyDigits acc true rest
    else none

/-- Python `int(s)` for a `str` argument given as a character list: strip
whitespace, optional single sign, then a nonempty digit run; `none` models
`ValueError`. -/
def pyInt (s : List Char) : Option Int :=
  let l := ((s.dropWhile isPySpace).reverse.dropWhile isPySpace).reverse
  match l with
  | [] => none
  | c :: rest =>
    if c = '-' then
      match rest with
      | [] => none
      | d :: ds =>
        if d.isDigit then (pyDigits (d.toNat - 48) false ds).map
          (fun n => -(n : Int))
        else none
    else if c = '+' then
      match rest with
      | [] => none
      | d :: ds =>
        if d.isDigit then (pyDigits (d.toNat - 48) false ds).map
          (fun n => (n : Int))
        else none
    else if c.isDigit then
      (pyDigits (c.toNat - 48) false rest).map (fun n => (n : Int))
    else none

/-- Python `str.startswith` on character lists. -/
def strStartsWith : List Char → List Char → Bool
  | _, [] => true
  | [], _ :: _ => false
  | c :: cs, p :: ps => c = p && strStartsWith cs ps

/-- Python `str.endswith` on character lists. -/
def strEndsWith (l suf : List Char) : Bool :=
  strStartsWith l.reverse suf.reverse

/-- Python `str.split(sep)` for a one-character separator: the split of
the empty string is `[""]`, and every separator occurrence opens a new
(possibly empty) part. -/
def pySplit (sep : Char) : List Char → List (List Char)
  | [] => [[]]
  | c :: rest =>
    if c = sep then [] :: pySplit sep rest
    else
      match pySplit sep rest with
      | [] => [[c]]
      | h :: t => (c :: h) :: t

/-- The stem `filename[:-5]` taken by `is_valid_configuration_filename`
(Python slicing clamps at zero for short strings). -/
def stemChars (filename : String) : List Char :=
  filename.toList.take (filename.toList.length - 5)

/-- `is_valid_configuration_filename` (`configuration_file.py` lines
139-156): must start with `nightskycam_config_`, end with `.toml`, split
into exactly three underscore-separated parts once the last five
characters (`.toml`) are removed, and the third part must parse with
Python `int`. -/
def is_valid_configuration_filename (filename : String) : Bool :=
  if !(strStartsWith filename.toList "nightskycam_config_".toList) then
    false
  else if !(strEndsWith filename.toList ".toml".toList) then false
  else
    let parts := pySplit '_' (stemChars filename)
    if parts.length ≠ 3 then false
    else (pyInt (parts.getD 2 [])).isSome

/-- `get_version_number` (`configuration_file.py` lines 169-175): the
third underscore-separated part of the stem as an integer; `none` models
the `ValueError` raised on an invalid filename. -/
def get_version_number (filename : String) : Option Int :=
  if is_valid_configuration_filename filename then
    pyInt ((pySplit '_' (stemChars filename)).getD 2 [])
  else none

/-- The maximum of a list of versions, as computed by `best_config_file`
(`configuration_file.py` lines 178-184: `versions[max(versions.keys())]`);
`none` models the error raised on an empty list.  Valid configuration
filenames are determined by their version number, so files are represented
by their versions. -/
def pyMax : List Int → Option Int
  | [] => none
  | x :: rest =>
    match pyMax rest with
    | none => some x
    | some m => some (max x m)

/-! ## skythreads/config_thread.py -/

/-- The on-disk state `ConfigThread` manipulates: the versions of the
`nightskycam_config_<version>.toml` files present in the configuration
folder, and the version the stable alias `nightskycam_config.toml`
(symlink) points to. -/
structure ConfigFolder where
  files : List Int
  aliasTarget : Option Int
deriving DecidableEq, Repr

/-- `local_config_cleanup` (`configuration_file.py` lines 187-206): pick
the best (highest-version) local file, repoint the alias symlink to it,
and delete every other local versioned file.  On an empty folder
`best_config_file` raises; that path is modelled as leaving the folder
unchanged (never reached by the callers modelled here, which always have
at least the downloaded file present). -/
def local_config_cleanup (folder : ConfigFolder) : ConfigFolder :=
  match pyMax folder.files with
  | none => folder
  | some best => { files := [best], aliasTarget := some best }

/-- `download_remote_if_better` (`skythreads/config_thread.py` lines
16-50): if some remote versioned file exists and its best version is
strictly greater than the best local one (or no local file exists),
download it into the configuration folder and return its version;
otherwise download nothing. -/
def download_remote_if_better (remote : List Int) (folder : ConfigFolder) :
    ConfigFolder × Option Int :=
  match pyMax remote with
  | none => (folder, none)
  | some bestRemote =>
    match pyMax folder.files with
    | some bestLocal =>
      if bestLocal ≥ bestRemote then (folder, none)
      else ({ folder with files := folder.files ++ [bestRemote] },
            some bestRemote)
    | none =>
      ({ folder with files := folder.files ++ [bestRemote] },
       some bestRemote)

/-- The configuration-distribution part of `ConfigThread._execute`
(`skythreads/config_thread.py` lines 239-265): download the best remote
file if it beats the best local one; if one was downloaded, validate it
(`valid` is the outcome of `is_a_valid_config_file` on that version).  On
success, run `local_config_cleanup` under the config lock (repointing the
alias); on failure, only log — the downloaded file stays in the folder and
the alias is untouched. -/
def configThread_execute (remote : List Int) (valid : Int → Bool)
    (folder : ConfigFolder) : ConfigFolder :=
  let r := download_remote_if_better remote folder
  match r.2 with
  | none => r.1
  | some v => if valid v then local_config_cleanup r.1 else r.1

/-! ## command_file.py -/

/-- `new_command_file` (`command_file.py` lines 51-61).  `remote` is the
name of the single remote `command_*.txt` file (`none` when there is
none); `previous` is the content of the persisted previous-command marker
file (`none` when the marker does not exist).  Returns the command file to
execute, or `none` to ignore the request. -/
def new_command_file (remote : Option String) (previous : Option String) :
    Option String :=
  match previous with
  | none => remote
  | some p => if remote ≠ some p then remote else none

/-- The persisted previous-command marker
(`/opt/nightskycam/command/previous.txt`). -/
structure CmdState where
  marker : Option String
deriving DecidableEq, Repr

/-- `execute_new_command` (`command_file.py` lines 87-109), which is also
the effect of `CommandRun._run_command` (lines 127-140) on the marker:
if `new_command_file` yields a file, run it and write its name into the
marker file; otherwise do nothing.  Returns the new marker state and the
name of the command executed (if any). -/
def execute_new_command (remote : Option String) (s : CmdState) :
    CmdState × Option String :=
  match new_command_file remote s.marker with
  | none => (s, none)
  | some f => (⟨some f⟩, some f)

/-! ## Claim theorems -/

set_option maxRecDepth 4000

/-- C1: the claim states that after one `RunningThreads.maintain` cycle the
set of live worker classes equals the desired set, for any prior registry,
including when two or more live workers must be removed in the same cycle.
The code violates this: the deletion loop applies the collected ascending
indexes one by one against the already-mutated list, so with registry
classes `[0, 1, 2]` and desired `[2]` it stops workers 0 and 1 but removes
entries 0 and 2, leaving the stopped class-1 worker registered (live
classes `[1, 2]`, not `[2]`); and with registry classes `[0, 1]` and an
empty desired set the second deletion is out of range and the cycle raises
`IndexError`. -/
theorem maintain_multi_removal_diverges :
    ((maintain (Except.ok [2])
        [⟨0, 0, true⟩, ⟨1, 1, true⟩, ⟨2, 2, true⟩] 3).registry.map
          SWorker.cls = [1, 2] ∧ (1 : Nat) ∉ ([2] : List Nat)) ∧
    (maintain (Except.ok []) [⟨0, 0, true⟩, ⟨1, 1, true⟩] 2).indexError
      = true := by
  decide

/-- C7: the claim states that a second `RunningThreads.maintain` cycle with
an unchanged desired set performs no stop and no start, for every prior
registry state.  The code violates this: starting from registry classes
`[0, 1, 2]` with desired `[2]`, the first cycle leaves the undesired
class-1 worker registered (see the deletion-loop index shift), so the
second cycle with the same desired set stops it again. -/
theorem maintain_second_cycle_stops :
    (maintain (Except.ok [2])
      (maintain (Except.ok [2])
        [⟨0, 0, true⟩, ⟨1, 1, true⟩, ⟨2, 2, true⟩] 3).registry 4).stopped
      = [1] ∧ ([1] : List Nat) ≠ [] := by
  decide

/-- C10: if reading the global configuration raises at the start of a
`RunningThreads.maintain` cycle, the cycle is skipped atomically: the
registry is returned exactly as it was, no worker is stopped, started or
revived, and no exception propagates to the caller. -/
theorem maintain_config_error_skips_cycle (msg : String)
    (regs : List SWorker) (counter : Nat) :
    maintain (Except.error msg) regs counter =
      ⟨regs, [], [], [], false⟩ :=
  rfl

/-- C4: for every sequence of decorated setter calls on a freshly
constructed `SkyThreadStatus`, (1) a call invokes the registered callbacks
iff the status after the call differs from the status immediately before
it, and (2) at every point `_started_running` is non-null iff the current
status is `running`. -/
theorem status_callbacks_and_started_running :
    (∀ (s : StatusState) (op : StatusOp),
        (status_change_callbacks s op).2 = true ↔
          (status_change_callbacks s op).1.status ≠ s.status) ∧
    (∀ ops : List StatusOp,
        (runStatusOps initStatus ops).startedRunning ≠ none ↔
          (runStatusOps initStatus ops).status = PyStatus.running) := by
  constructor
  · intro s op
    simp [status_change_callbacks]
  · intro ops
    exact runStatusOps_inv initStatus ops
      (by simp [StartedRunningInv, initStatus])

/-- C6: the claim states that an exception raised by a registered status
callback never propagates out of the setter call.  The code violates
this: the `_status_change_callbacks` decorator invokes the callbacks with
no surrounding `try/except`, so on the `starting → running` transition a
raising callback propagates its exception to the worker that called
`set_running`. -/
theorem setter_callback_exception_propagates :
    setter_with_callbacks initStatus (StatusOp.opRunning 0)
      [Except.error "callback exception"] =
      Except.error "callback exception" :=
  rfl

/-- C5: the claim states that `get_global` re-parses only when the file
mtime differs from the mtime observed at the most recent parse, and that
`get_st_mtime` afterwards returns the mtime observed at the most recent
read.  The code violates both: `_st_mtime` is assigned only on the very
first call, so after the file changes from mtime 5 to mtime 7 (second
call re-parses), a third call at the unchanged mtime 7 still re-parses
the file, and `get_st_mtime` still returns 5. -/
theorem dynamic_getter_stale_mtime :
    (get_global (get_global (get_global dynInit 5 10).1 7 20).1 7 20).2.2
      = true ∧
    get_st_mtime
      (get_global (get_global (get_global dynInit 5 10).1 7 20).1 7 20).1
      = some 5 ∧ (5 : Nat) ≠ 7 := by
  decide

/-- C3: the claim states that `DynamicConfigurationGetter` readers and the
`ConfigThread` alias repoint use the lock of the same name, hence the same
lock object.  The code violates this: the reader requests
`Locks.get_lock("configuration")` while `Locks.get_config_lock()` is
`get_lock("config")`; the names differ, so the `Locks` registry hands out
two distinct lock objects (distinct creation indexes). -/
theorem config_lock_names_disagree :
    dynamic_getter_lock_key ≠ config_lock_key ∧
    (get_lock [] dynamic_getter_lock_key).2 ≠
      (get_lock (get_lock [] dynamic_getter_lock_key).1 config_lock_key).2
      := by
  decide

/-- C2: the claim states that when the downloaded candidate configuration
file fails validation, it is no longer on disk after the step and no
versioned files beyond the previously current one remain.  The code
violates this: with local version 4 (alias at 4) and remote versions
`[3, 5]` where 5 fails validation, the step leaves the invalid version-5
file in the folder (`files = [4, 5]`, alias still 4) — and the next cycle
downloads nothing because the invalid local 5 now ties the remote best. -/
theorem invalid_config_file_kept :
    configThread_execute [3, 5] (fun v => decide (v ≠ 5)) ⟨[4], some 4⟩ =
      ⟨[4, 5], some 4⟩ ∧
    configThread_execute [3, 5] (fun v => decide (v ≠ 5))
        ⟨[4, 5], some 4⟩ =
      ⟨[4, 5], some 4⟩ := by
  decide

/-- C8: `new_command_file` returns `none` (the request is ignored) exactly
when there is no remote command file or its name equals the persisted
previous-command marker; and since executing a command writes its name to
the marker, a remote request with the same name as the one just consumed
is not executed a second time. -/
theorem command_dedup :
    (∀ (remote previous : Option String),
        new_command_file remote previous = none ↔
          remote = none ∨ remote = previous) ∧
    (∀ (f : String) (s : CmdState),
        (execute_new_command (some f)
          (execute_new_command (some f) s).1).2 = none) := by
  constructor
  · intro remote previous
    cases previous with
    | none =>
      cases remote <;> simp [new_command_file]
    | some p =>
      cases remote with
      | none => simp [new_command_file]
      | some r =>
        by_cases h : r = p <;> simp [new_command_file, h]
  · intro f s
    cases s with
    | mk marker =>
      cases marker with
      | none => simp [execute_new_command, new_command_file]
      | some p =>
        by_cases h : f = p <;>
          simp [execute_new_command, new_command_file, h]

/-- C9 counterexample: the claim states that every filename accepted by
`is_valid_configuration_filename` has a third segment parsing as a
non-negative integer.  Python `int` accepts a sign, so the code accepts
`nightskycam_config_-3.toml`, whose version number is `-3 < 0`. -/
theorem negative_version_accepted :
    is_valid_configuration_filename "nightskycam_config_-3.toml" = true ∧
    get_version_number "nightskycam_config_-3.toml" = some (-3) ∧
    (-3 : Int) < 0 := by
  refine ⟨by decide, by decide, by decide⟩

/-- C9 amended: `is_valid_configuration_filename` accepts a filename only
if, after stripping the `.toml` extension, it has exactly three
underscore-delimited segments and the third segment parses as an integer
(possibly negative, since Python `int` accepts a sign). -/
theorem accepted_filename_shape (filename : String)
    (h : is_valid_configuration_filename filename = true) :
    (pySplit '_' (stemChars filename)).length = 3 ∧
    ∃ n : Int,
      pyInt ((pySplit '_' (stemChars filename)).getD 2 []) = some n := by
  simp only [is_valid_configuration_filename] at h
  split_ifs at h with h1 h2 h3
  exact ⟨not_ne_iff.mp h3, Option.isSome_iff_exists.mp h⟩

/-- C9 amended, witnessed at `nightskycam_config_0.toml`. -/
theorem accepted_filename_shape_witness :
    (pySplit '_' (stemChars "nightskycam_config_0.toml")).length = 3 ∧
    ∃ n : Int,
      pyInt ((pySplit '_'
        (stemChars "nightskycam_config_0.toml")).getD 2 []) = some n :=
  accepted_filename_shape "nightskycam_config_0.toml" (by decide)

end Nightskycam
